import Mathlib

/-!
Shallow embedding of the Post model and its ActivityPub handlers from
`activities/models/post.py`, together with the stator index migration
`users/migrations/0013_stator_indexes.py`.

Persisted state (the Django ORM tables touched by these handlers) is made
explicit as a `Store` record threaded through every operation; Python
exceptions become `Except Err`.  JSON documents are association lists whose
values are either primitives or one nested (flat) object, which covers every
document shape these handlers build or consume.
-/

namespace Takahe

/-- Modelled from the spec: the identity model (`users/models/identity.py`) is
not part of the source sample; per the spec an actor has a locality flag and a
canonical actor URI, plus the web profile URL its `urls.view_nice` expands to. -/
structure Identity where
  id : Nat
  is_local : Bool
  actor_uri : String
  view_nice_url : String
  deriving DecidableEq, Repr

/-- The two post states of `PostStates` (`new` is initial, `fanned_out` terminal). -/
inductive PostState where
  | new
  | fanned_out
  deriving DecidableEq, Repr

/-- `Post.Visibilities` integer choices. -/
inductive Visibility where
  | public
  | unlisted
  | followers
  | mentioned
  deriving DecidableEq, Repr

/-- The `Post` model fields used by the handlers under study. -/
structure Post where
  id : Nat
  author : Identity
  state : PostState
  is_local : Bool
  object_uri : Option String
  visibility : Visibility
  content : String
  sensitive : Bool
  summary : Option String
  url : Option String
  «to» : List Nat
  mentions : List Nat
  published : Nat
  deriving DecidableEq, Repr

/-- Modelled from the spec: `FanOut` (`activities/models/fan_out.py` is not in
the source sample): recipient identity reference, a type tag, and a reference
to the subject entity; built here exactly as `Post.afan_out` instantiates it. -/
inductive FanOutType where
  | post
  | like
  | boost
  deriving DecidableEq, Repr

structure FanOut where
  identity_id : Nat
  type : FanOutType
  subject_post : Nat
  deriving DecidableEq, Repr

/-- Modelled from the spec: a follow relationship (`users/models/follow.py` is
not in the source sample): a source identity following a target identity. -/
structure Follow where
  source : Identity
  target : Identity
  deriving DecidableEq, Repr

/-- Modelled from the spec: a timeline event row as `TimelineEvent.add_post`
creates it (`activities/models/timeline_event.py` is not in the source sample). -/
structure TimelineEvent where
  identity_id : Nat
  post_id : Nat
  deriving DecidableEq, Repr

/-- The persisted store the handlers read and write, with fresh-id counters and
the current time (`timezone.now`). -/
structure Store where
  posts : List Post
  identities : List Identity
  follows : List Follow
  fanouts : List FanOut
  events : List TimelineEvent
  nextId : Nat
  nextIdentityId : Nat
  now : Nat
  deriving DecidableEq, Repr

/-! ### JSON documents -/

/-- A primitive JSON value as these handlers use them. -/
inductive APPrim where
  | str (s : String)
  | bool (b : Bool)
  | null
  deriving DecidableEq, Repr

/-- A flat JSON object: association list over primitives. -/
abbrev APDoc := List (String × APPrim)

/-- A JSON value one level up: a primitive or one nested flat object; the
`Create`/`Delete` envelopes are association lists over these. -/
inductive APValue where
  | prim (p : APPrim)
  | obj (d : APDoc)
  deriving DecidableEq, Repr

abbrev APEnvelope := List (String × APValue)

/-- Python string coercion of a primitive where the code stores or compares it
against a string column; every input exercised by the handlers is a string. -/
def APPrim.toStr : APPrim → String
  | .str s => s
  | .bool b => if b then "True" else "False"
  | .null => "None"

/-- The nested object of an envelope value (`data["object"]`), `[]` otherwise. -/
def APValue.toObj : APValue → APDoc
  | .obj d => d
  | .prim _ => []

/-- Errors the Python code can raise. -/
inductive Err where
  | valueError (msg : String)
  | keyError (msg : String)
  | doesNotExist (msg : String)
  deriving DecidableEq, Repr

instance {ε α : Type} [DecidableEq ε] [DecidableEq α] : DecidableEq (Except ε α) :=
  fun x y =>
    match x, y with
    | .ok a, .ok b =>
        if h : a = b then .isTrue (by rw [h]) else .isFalse (fun hc => h (Except.ok.inj hc))
    | .error a, .error b =>
        if h : a = b then .isTrue (by rw [h]) else .isFalse (fun hc => h (Except.error.inj hc))
    | .ok _, .error _ => .isFalse (fun hc => Except.noConfusion hc)
    | .error _, .ok _ => .isFalse (fun hc => Except.noConfusion hc)

/-- `data[k]` on a flat document: `KeyError` when absent. -/
def getKey (d : APDoc) (k : String) : Except Err APPrim :=
  match d.lookup k with
  | some v => .ok v
  | none => .error (.keyError k)

/-- `data[k]` on an envelope: `KeyError` when absent. -/
def getKeyE (d : APEnvelope) (k : String) : Except Err APValue :=
  match d.lookup k with
  | some v => .ok v
  | none => .error (.keyError k)

/-- `data.get(k, None)` yielding an optional string column value. -/
def getOptStr (d : APDoc) (k : String) : Option String :=
  match d.lookup k with
  | some (.str s) => some s
  | some (.bool b) => some (if b then "True" else "False")
  | some .null => none
  | none => none

/-- `data.get(k, False)` coerced into a boolean column (Python truthiness). -/
def getBool (d : APDoc) (k : String) : Bool :=
  match d.lookup k with
  | some (.bool b) => b
  | some (.str s) => s != ""
  | some .null => false
  | none => false

/-- Python truthiness of an optional string (`bool(summary)`, `if self.summary`). -/
def truthy : Option String → Bool
  | none => false
  | some s => s != ""

/-! ### External collaborators (out of scope per the spec, modelled as plain
functions on the embedded data) -/

/-- Modelled from the spec: `core.html.sanitize_post`, the external content
sanitization collaborator; its transformation is irrelevant to every claim. -/
def sanitize_post (s : String) : String := s

/-- Modelled from the spec: `core.ld.format_ld_date`, external date formatting. -/
def format_ld_date (t : Nat) : String := toString t

/-- Modelled from the spec: `core.ld.parse_ld_date`, external date parsing,
inverse of `format_ld_date` on its image. -/
def parse_ld_date : Option String → Nat
  | none => 0
  | some s => s.toNat?.getD 0

/-! ### URL helpers (`Post.urls`, expanded as urlman renders them) -/

/-- `urls.object_uri = "{self.author.actor_uri}posts/{self.id}/"`. -/
def Post.urls_object_uri (p : Post) : String :=
  p.author.actor_uri ++ "posts/" ++ toString p.id ++ "/"

/-- `urls.view_nice = "{self.author.urls.view_nice}posts/{self.id}/"`. -/
def Post.urls_view_nice (p : Post) : String :=
  p.author.view_nice_url ++ "posts/" ++ toString p.id ++ "/"

/-! ### Store primitives -/

/-- `Post.objects.get(object_uri=uri)` (unique column, first match). -/
def findPostByUri (s : Store) (uri : String) : Option Post :=
  s.posts.find? (fun p => p.object_uri == some uri)

/-- `Post.objects.aget(pk=pk)`. -/
def findPostByPk (s : Store) (pk : Nat) : Option Post :=
  s.posts.find? (fun p => p.id == pk)

/-- `post.save()` on an existing row. -/
def replacePost (s : Store) (pk : Nat) (p : Post) : Store :=
  { s with posts := s.posts.map (fun q => if q.id == pk then p else q) }

/-- `post.delete()`. -/
def deletePost (s : Store) (pk : Nat) : Store :=
  { s with posts := s.posts.filter (fun q => q.id != pk) }

/-- Modelled from the spec: `transition_perform`, the administrative
force-transition that directly sets the persisted state field. -/
def transition_perform (s : Store) (pk : Nat) (st : PostState) : Store :=
  { s with posts := s.posts.map (fun q => if q.id == pk then { q with state := st } else q) }

/-- Modelled from the spec: `Identity.by_actor_uri(uri, create=True)` — the
`resolve_or_create_identity` collaborator: return the known identity for the
actor URI or create a remote one for it. -/
def Identity.by_actor_uri (s : Store) (uri : String) : Store × Identity :=
  match s.identities.find? (fun i => i.actor_uri == uri) with
  | some i => (s, i)
  | none =>
      let i : Identity :=
        { id := s.nextIdentityId, is_local := false, actor_uri := uri, view_nice_url := uri }
      ({ s with identities := s.identities ++ [i], nextIdentityId := s.nextIdentityId + 1 }, i)

/-! ### Local creation (`Post.create_local`) -/

/-- `Post.create_local(author, content, summary=None)`: create the row with the
model defaults, then set `object_uri` and `url` from the urlman patterns and
save again. -/
def Post.create_local (s : Store) (author : Identity) (content : String)
    (summary : Option String) : Store × Post :=
  let p0 : Post :=
    { id := s.nextId
      author := author
      state := .new
      is_local := true
      object_uri := none
      visibility := .public
      content := content
      summary := if truthy summary then summary else none
      sensitive := truthy summary
      url := none
      «to» := []
      mentions := []
      published := s.now }
  let p : Post := { p0 with object_uri := some p0.urls_object_uri, url := some p0.urls_view_nice }
  ({ s with posts := s.posts ++ [p], nextId := s.nextId + 1 }, p)

/-! ### ActivityPub outbound (`Post.to_ap`, `Post.to_create_ap`) -/

/-- An optional string column rendered into a JSON value. -/
def optPrim : Option String → APPrim
  | some s => .str s
  | none => .null

/-- `Post.to_ap`: the AP JSON for the post. -/
def Post.to_ap (p : Post) : APDoc :=
  let value : APDoc :=
    [ ("type", .str "Note")
    , ("id", optPrim p.object_uri)
    , ("published", .str (format_ld_date p.published))
    , ("attributedTo", .str p.author.actor_uri)
    , ("content", .str (sanitize_post p.content))
    , ("to", .str "as:Public")
    , ("as:sensitive", .bool p.sensitive)
    , ("url", optPrim (if p.is_local then some p.urls_view_nice else p.url)) ]
  if truthy p.summary then value ++ [("summary", optPrim p.summary)] else value

/-- `Post.to_create_ap`: the `Create` envelope around `to_ap`. -/
def Post.to_create_ap (p : Post) : APEnvelope :=
  [ ("type", .prim (.str "Create"))
  , ("id", .prim (.str ((p.object_uri.getD "") ++ "#create")))
  , ("actor", .prim (.str p.author.actor_uri))
  , ("object", .obj p.to_ap) ]

/-! ### Fan-out (`Post.afan_out`, `PostStates.handle_new`) -/

/-- `Post.afan_out`: re-load the post (`afetch_full`), create one `FanOut` of
type post per inbound follow of the author where either side is local, and one
for the author themself when the author is local. -/
def Post.afan_out (s : Store) (p : Post) : Except Err Store :=
  match findPostByPk s p.id with
  | none => .error (.doesNotExist "Post matching query does not exist")
  | some post =>
      let inbound := s.follows.filter (fun f => f.target.id == post.author.id)
      let follower_fanouts := inbound.filterMap (fun f =>
        if f.source.is_local || f.target.is_local then
          some { identity_id := f.source.id, type := .post, subject_post := post.id }
        else none)
      let s1 := { s with fanouts := s.fanouts ++ follower_fanouts }
      if post.author.is_local then
        .ok { s1 with fanouts := s1.fanouts ++
          [{ identity_id := post.author.id, type := .post, subject_post := post.id }] }
      else
        .ok s1

/-- `PostStates.handle_new`: run `afan_out`, then return `fanned_out`. -/
def PostStates.handle_new (s : Store) (p : Post) : Except Err (Store × PostState) := do
  let s1 ← p.afan_out s
  .ok (s1, .fanned_out)

/-- Modelled from the spec: one successful scheduler pass over a claimed post —
run the handler bound to the post's current state and commit the returned
transition; `fanned_out` is terminal and has no handler, so nothing runs. -/
def stepPost (s : Store) (pk : Nat) : Except Err Store :=
  match findPostByPk s pk with
  | none => .ok s
  | some p =>
      match p.state with
      | .fanned_out => .ok s
      | .new => do
          let (s1, next) ← PostStates.handle_new s p
          .ok (transition_perform s1 pk next)

/-! ### ActivityPub inbound (`Post.by_ap`, `Post.by_object_uri`, handlers) -/

/-- The update block of `by_ap` (run when `update or created`): re-read
`content`, `summary`, `as:sensitive`, `url`, `published` from the document and
save. -/
def applyUpdate (p : Post) (data : APDoc) : Except Err Post := do
  let contentv ← getKey data "content"
  .ok { p with
    content := sanitize_post contentv.toStr
    summary := getOptStr data "summary"
    sensitive := getBool data "as:sensitive"
    url := getOptStr data "url"
    published := parse_ld_date (getOptStr data "published") }

/-- `Post.by_ap(data, create, update)`: look the post up by `data["id"]`;
create it (resolving the author from `attributedTo`) when absent and `create`
is set, else raise `KeyError`; then apply the update block when `update` or
just created. -/
def Post.by_ap (s : Store) (data : APDoc) (create : Bool) (update : Bool) :
    Except Err (Store × Post) := do
  let idv ← getKey data "id"
  match findPostByUri s idv.toStr with
  | some post =>
      if update then do
        let post2 ← applyUpdate post data
        .ok (replacePost s post.id post2, post2)
      else
        .ok (s, post)
  | none =>
      if create then do
        let attrv ← getKey data "attributedTo"
        let resolved := Identity.by_actor_uri s attrv.toStr
        let s1 := resolved.1
        let author := resolved.2
        let contentv ← getKey data "content"
        let p0 : Post :=
          { id := s1.nextId
            author := author
            state := .new
            is_local := false
            object_uri := some idv.toStr
            visibility := .public
            content := sanitize_post contentv.toStr
            sensitive := false
            summary := none
            url := none
            «to» := []
            mentions := []
            published := s1.now }
        let p ← applyUpdate p0 data
        .ok ({ s1 with posts := s1.posts ++ [p], nextId := s1.nextId + 1 }, p)
      else
        .error (.keyError ("No post with ID " ++ idv.toStr))

/-- An HTTP GET request as `httpx.get` receives it. -/
structure HttpRequest where
  url : String
  headers : List (String × String)
  follow_redirects : Bool
  deriving DecidableEq, Repr

/-- An HTTP response: status code and parsed JSON body. -/
structure HttpResponse where
  status_code : Nat
  body : APDoc
  deriving DecidableEq, Repr

/-- The network is a function from requests to responses (external transport). -/
abbrev Network := HttpRequest → HttpResponse

/-- Modelled from the spec: `core.ld.canonicalise(doc, include_security)`, the
external JSON-LD canonicalization collaborator, kept abstract as a parameter. -/
abbrev Canonicalise := APDoc → Bool → APDoc

/-- `Post.by_object_uri(uri, fetch)`: local lookup; on miss with `fetch`, GET
the URI with `Accept: application/json` following redirects, and on a 2xx
response canonicalise the body and hand it to `by_ap(create=True, update=True)`;
any other outcome raises `DoesNotExist`. -/
def Post.by_object_uri (net : Network) (canon : Canonicalise) (s : Store)
    (object_uri : String) (fetch : Bool) : Except Err (Store × Post) :=
  match findPostByUri s object_uri with
  | some post => .ok (s, post)
  | none =>
      if fetch then
        let response := net
          { url := object_uri
            headers := [("Accept", "application/json")]
            follow_redirects := true }
        if 200 ≤ response.status_code ∧ response.status_code < 300 then
          Post.by_ap s (canon response.body true) true true
        else
          .error (.doesNotExist ("Cannot find Post with URI " ++ object_uri))
      else
        .error (.doesNotExist ("Cannot find Post with URI " ++ object_uri))

/-- `TimelineEvent.add_post(identity, post)` for every local follower of the
author, as `handle_create_ap` performs it. -/
def addTimelineEvents (s : Store) (post : Post) : Store :=
  let local_follows := s.follows.filter
    (fun f => f.target.id == post.author.id && f.source.is_local)
  let new_events : List TimelineEvent := local_follows.map
    (fun f => { identity_id := f.source.id, post_id := post.id })
  { s with events := s.events ++ new_events }

/-- `Post.handle_create_ap(data)`: reject when the `Create` actor is not the
object's `attributedTo`; otherwise resolve/create via `by_ap`, add timeline
events for local followers, and force the post into `fanned_out`. -/
def Post.handle_create_ap (s : Store) (data : APEnvelope) : Except Err Store := do
  let actorv ← getKeyE data "actor"
  let objv ← getKeyE data "object"
  let attrv ← getKey objv.toObj "attributedTo"
  if actorv ≠ APValue.prim attrv then
    .error (.valueError "Create actor does not match its Post object")
  else do
    let (s1, post) ← Post.by_ap s objv.toObj true true
    let s2 := addTimelineEvents s1 post
    .ok (transition_perform s2 post.id .fanned_out)

/-- `Post.handle_delete_ap(data)`: resolve `data["object"]["id"]` locally
(no fetch); absent means already deleted, a no-op; a present post is deleted
only when the request actor is its author's actor URI, else rejected. -/
def Post.handle_delete_ap (net : Network) (canon : Canonicalise) (s : Store)
    (data : APEnvelope) : Except Err Store := do
  let objv ← getKeyE data "object"
  let idv ← getKey objv.toObj "id"
  match Post.by_object_uri net canon s idv.toStr false with
  | .error (.doesNotExist _) => .ok s
  | .error e => .error e
  | .ok (s1, post) => do
      let actorv ← getKeyE data "actor"
      if APValue.prim (.str post.author.actor_uri) == actorv then
        .ok (deletePost s1 post.id)
      else
        .error (.valueError "Actor on delete does not match object")

/-- `Post.debug_fetch`: re-fetch the post's own URI and update from the
canonicalised body on a 2xx response. -/
def Post.debug_fetch (net : Network) (canon : Canonicalise) (s : Store)
    (p : Post) : Option (Except Err (Store × Post)) :=
  let response := net
    { url := p.object_uri.getD "None"
      headers := [("Accept", "application/json")]
      follow_redirects := true }
  if 200 ≤ response.status_code ∧ response.status_code < 300 then
    some (Post.by_ap s (canon response.body true) false true)
  else
    none

/-! ### Migration `users/migrations/0013_stator_indexes.py` -/

/-- A `migrations.AlterField` operation replacing a column with a
`BooleanField(db_index=..., default=...)`. -/
structure AlterFieldOp where
  model_name : String
  name : String
  db_index : Bool
  default : Bool
  deriving DecidableEq, Repr

/-- A `migrations.AlterIndexTogether` operation setting a model's composite
index set. -/
structure AlterIndexTogetherOp where
  name : String
  index_together : List (List String)
  deriving DecidableEq, Repr

inductive MigrationOp where
  | alterField (op : AlterFieldOp)
  | alterIndexTogether (op : AlterIndexTogetherOp)
  deriving DecidableEq, Repr

/-- The operation list of migration `users.0013_stator_indexes`, in source
order. -/
def stator_indexes_operations : List MigrationOp :=
  [ .alterField { model_name := "block", name := "state_ready", db_index := true, default := true }
  , .alterField { model_name := "domain", name := "state_ready", db_index := true, default := true }
  , .alterField { model_name := "follow", name := "state_ready", db_index := true, default := true }
  , .alterField { model_name := "identity", name := "state_ready", db_index := true, default := true }
  , .alterField { model_name := "inboxmessage", name := "state_ready", db_index := true, default := true }
  , .alterField { model_name := "passwordreset", name := "state_ready", db_index := true, default := true }
  , .alterField { model_name := "report", name := "state_ready", db_index := true, default := true }
  , .alterIndexTogether { name := "domain", index_together := [["state_ready", "state_locked_until", "state"]] }
  , .alterIndexTogether { name := "inboxmessage", index_together := [["state_ready", "state_locked_until", "state"]] }
  , .alterIndexTogether { name := "passwordreset", index_together := [["state_ready", "state_locked_until", "state"]] }
  , .alterIndexTogether { name := "report", index_together := [["state_ready", "state_locked_until", "state"]] } ]

/-- The schedulable tables this migration touches: those whose `state_ready`
column it alters. -/
def stateReadyModels : List String :=
  stator_indexes_operations.filterMap (fun op =>
    match op with
    | .alterField f => if f.name == "state_ready" then some f.model_name else none
    | .alterIndexTogether _ => none)

/-- The tables this migration covers with the composite
`(state_ready, state_locked_until, state)` index. -/
def compositeIndexModels : List String :=
  stator_indexes_operations.filterMap (fun op =>
    match op with
    | .alterField _ => none
    | .alterIndexTogether a =>
        if ["state_ready", "state_locked_until", "state"] ∈ a.index_together then
          some a.name
        else none)

/-! ### Shared helper definitions and lemmas -/

/-- The store a caller observes after a handler run: the returned store on
success, the unchanged input store when the handler raised. -/
def runExcept (s : Store) (r : Except Err Store) : Store :=
  match r with
  | .ok s2 => s2
  | .error _ => s

theorem to_ap_lookup_id (p : Post) :
    p.to_ap.lookup "id" = some (optPrim p.object_uri) := by
  unfold Post.to_ap
  cases h : truthy p.summary <;>
    simp only [if_true, if_false, Bool.false_eq_true] <;> rfl

theorem to_ap_lookup_content (p : Post) :
    p.to_ap.lookup "content" = some (.str (sanitize_post p.content)) := by
  unfold Post.to_ap
  cases h : truthy p.summary <;>
    simp only [if_true, if_false, Bool.false_eq_true] <;> rfl

theorem find_append_eq_right {α : Type} (pred : α → Bool) (l1 l2 : List α)
    (h : ∀ x ∈ l1, pred x = false) :
    List.find? pred (l1 ++ l2) = List.find? pred l2 := by
  induction l1 with
  | nil => rfl
  | cons a l ih =>
      have ha := h a (by simp)
      simp only [List.cons_append, List.find?, ha]
      exact ih (fun x hx => h x (by simp [hx]))

theorem by_actor_uri_posts (s : Store) (uri : String) :
    (Identity.by_actor_uri s uri).1.posts = s.posts := by
  unfold Identity.by_actor_uri
  cases s.identities.find? (fun i => i.actor_uri == uri) <;> rfl

theorem by_actor_uri_nextId (s : Store) (uri : String) :
    (Identity.by_actor_uri s uri).1.nextId = s.nextId := by
  unfold Identity.by_actor_uri
  cases s.identities.find? (fun i => i.actor_uri == uri) <;> rfl

theorem by_actor_uri_fanouts (s : Store) (uri : String) :
    (Identity.by_actor_uri s uri).1.fanouts = s.fanouts := by
  unfold Identity.by_actor_uri
  cases s.identities.find? (fun i => i.actor_uri == uri) <;> rfl

/-! ### The claims -/

/-- C10: for every post, whatever its visibility and recipients, `to_ap` emits
the constant `"as:Public"` as the document's `to` field. -/
theorem to_ap_to_field_constant_public (p : Post) :
    p.to_ap.lookup "to" = some (.str "as:Public") := by
  unfold Post.to_ap
  cases h : truthy p.summary <;>
    simp only [if_true, if_false, Bool.false_eq_true] <;> rfl

/-- C4: `to_ap` emits exactly the keys type, id, published, attributedTo,
content, to, as:sensitive, url, plus summary exactly when the post has a
(truthy) summary; the type is `"Note"`, the id is the post's `object_uri`, and
`to_create_ap` wraps the note in a Create envelope whose id appends `#create`
to the note id, whose actor is the author's actor URI, and whose object is the
note itself. -/
theorem to_ap_document_shape_and_create_envelope (p : Post) (u : String)
    (h : p.object_uri = some u) :
    p.to_ap.map Prod.fst =
      ["type", "id", "published", "attributedTo", "content", "to", "as:sensitive", "url"] ++
        (if truthy p.summary then ["summary"] else []) ∧
    p.to_ap.lookup "type" = some (.str "Note") ∧
    p.to_ap.lookup "id" = some (.str u) ∧
    p.to_create_ap =
      [ ("type", .prim (.str "Create"))
      , ("id", .prim (.str (u ++ "#create")))
      , ("actor", .prim (.str p.author.actor_uri))
      , ("object", .obj p.to_ap) ] := by
  unfold Post.to_create_ap Post.to_ap
  rw [h]
  cases hs : truthy p.summary <;> simp [optPrim] <;> rfl

/-- C2: an inbound Create whose actor differs from its object's attributedTo
is rejected with a ValueError and no post row is created: the handler raises
and the caller's store is unchanged. -/
theorem handle_create_ap_actor_mismatch_rejected (s : Store) (data : APEnvelope)
    (actorv objv : APValue) (attrv : APPrim)
    (ha : getKeyE data "actor" = .ok actorv)
    (ho : getKeyE data "object" = .ok objv)
    (hat : getKey objv.toObj "attributedTo" = .ok attrv)
    (hne : actorv ≠ APValue.prim attrv) :
    Post.handle_create_ap s data =
      .error (.valueError "Create actor does not match its Post object") ∧
    runExcept s (Post.handle_create_ap s data) = s := by
  have hmain : Post.handle_create_ap s data =
      .error (.valueError "Create actor does not match its Post object") := by
    unfold Post.handle_create_ap
    rw [ha]
    simp only [bind, Except.bind]
    rw [ho]
    simp only [bind, Except.bind]
    rw [hat]
    simp only [bind, Except.bind]
    rw [if_pos hne]
  exact ⟨hmain, by rw [hmain]; rfl⟩

/-- C5: an inbound Delete whose object id matches no stored post is a no-op:
the handler returns normally with the store exactly as it was. -/
theorem handle_delete_ap_unknown_object_noop (net : Network) (canon : Canonicalise)
    (s : Store) (data : APEnvelope) (objv : APValue) (idv : APPrim)
    (ho : getKeyE data "object" = .ok objv)
    (hid : getKey objv.toObj "id" = .ok idv)
    (hmiss : findPostByUri s idv.toStr = none) :
    Post.handle_delete_ap net canon s data = .ok s := by
  unfold Post.handle_delete_ap
  rw [ho]
  simp only [bind, Except.bind]
  rw [hid]
  simp only [bind, Except.bind]
  unfold Post.by_object_uri
  rw [hmiss]
  simp

/-- C6: an inbound Delete that resolves a stored post is rejected with a
ValueError, leaving the post undeleted, exactly when the request actor is not
the post author's actor URI; when the actor matches, the post is deleted. -/
theorem handle_delete_ap_actor_check (net : Network) (canon : Canonicalise)
    (s : Store) (data : APEnvelope) (objv : APValue) (idv : APPrim)
    (post : Post) (actorv : APValue)
    (ho : getKeyE data "object" = .ok objv)
    (hid : getKey objv.toObj "id" = .ok idv)
    (hfound : findPostByUri s idv.toStr = some post)
    (ha : getKeyE data "actor" = .ok actorv) :
    (actorv ≠ APValue.prim (.str post.author.actor_uri) →
      Post.handle_delete_ap net canon s data =
        .error (.valueError "Actor on delete does not match object") ∧
      runExcept s (Post.handle_delete_ap net canon s data) = s) ∧
    (actorv = APValue.prim (.str post.author.actor_uri) →
      Post.handle_delete_ap net canon s data = .ok (deletePost s post.id)) := by
  have hbase : Post.handle_delete_ap net canon s data =
      (if APValue.prim (.str post.author.actor_uri) == actorv then
        .ok (deletePost s post.id)
      else .error (.valueError "Actor on delete does not match object")) := by
    unfold Post.handle_delete_ap
    rw [ho]
    simp only [bind, Except.bind]
    rw [hid]
    simp only [bind, Except.bind]
    unfold Post.by_object_uri
    rw [hfound]
    simp only [bind, Except.bind]
    rw [ha]
  constructor
  · intro hne
    have hfalse : (APValue.prim (.str post.author.actor_uri) == actorv) = false := by
      simp [beq_iff_eq]
      exact fun hcontra => hne hcontra.symm
    rw [hbase, hfalse]
    exact ⟨by simp, by simp [runExcept]⟩
  · intro heq
    rw [hbase, heq]
    simp

/-- C1: for a local post in state new whose local author has exactly the two
local followers f1 and f2, one successful run of the new-state handler returns
the fanned_out transition while creating exactly three post-type FanOut rows
(f1, f2, and the author themself), and committing the run sets the post's
state to fanned_out. -/
theorem handle_new_local_author_fans_out_three (s : Store) (p : Post)
    (f1 f2 : Identity)
    (hstate : p.state = .new)
    (_hplocal : p.is_local = true)
    (hp : findPostByPk s p.id = some p)
    (halocal : p.author.is_local = true)
    (hf1 : f1.is_local = true) (hf2 : f2.is_local = true)
    (hfollows : s.follows.filter (fun f => f.target.id == p.author.id) =
      [{ source := f1, target := p.author }, { source := f2, target := p.author }]) :
    PostStates.handle_new s p =
      .ok ({ s with fanouts := s.fanouts ++
        [ { identity_id := f1.id, type := .post, subject_post := p.id }
        , { identity_id := f2.id, type := .post, subject_post := p.id }
        , { identity_id := p.author.id, type := .post, subject_post := p.id } ] },
        .fanned_out) ∧
    stepPost s p.id =
      .ok { s with
        posts := s.posts.map
          (fun q => if q.id == p.id then { q with state := .fanned_out } else q)
        fanouts := s.fanouts ++
          [ { identity_id := f1.id, type := .post, subject_post := p.id }
          , { identity_id := f2.id, type := .post, subject_post := p.id }
          , { identity_id := p.author.id, type := .post, subject_post := p.id } ] } := by
  have hfan : p.afan_out s = .ok { s with fanouts := s.fanouts ++
      [ { identity_id := f1.id, type := .post, subject_post := p.id }
      , { identity_id := f2.id, type := .post, subject_post := p.id }
      , { identity_id := p.author.id, type := .post, subject_post := p.id } ] } := by
    unfold Post.afan_out
    rw [hp]
    dsimp only
    rw [hfollows]
    simp [hf1, hf2, halocal, List.filterMap]
  have hnew : PostStates.handle_new s p =
      .ok ({ s with fanouts := s.fanouts ++
        [ { identity_id := f1.id, type := .post, subject_post := p.id }
        , { identity_id := f2.id, type := .post, subject_post := p.id }
        , { identity_id := p.author.id, type := .post, subject_post := p.id } ] },
        .fanned_out) := by
    unfold PostStates.handle_new
    rw [hfan]
    rfl
  refine ⟨hnew, ?_⟩
  unfold stepPost
  rw [hp]
  dsimp only
  rw [hstate]
  dsimp only
  rw [hnew]
  dsimp only [bind, Except.bind]
  rfl

/-- C3: round-trip — after creating a post locally, feeding its outbound
Create envelope's object back through `by_ap` (the inbound Create handler's
resolution path) succeeds, resolves the very same post row (same primary key,
same `object_uri`), and leaves the number of post rows unchanged. -/
theorem create_local_roundtrip_resolves_same_post (s : Store) (author : Identity)
    (body : String) (summary : Option String)
    (hfresh : ∀ q ∈ s.posts,
      (q.object_uri == some (author.actor_uri ++ "posts/" ++ toString s.nextId ++ "/")) = false) :
    (Post.by_ap (Post.create_local s author body summary).1
        ((Post.create_local s author body summary).2.to_ap) true true).toOption.map
      (fun x => (x.2.id, x.2.object_uri, x.1.posts.length)) =
    some ((Post.create_local s author body summary).2.id,
      (Post.create_local s author body summary).2.object_uri,
      (Post.create_local s author body summary).1.posts.length) := by
  have hid : getKey ((Post.create_local s author body summary).2.to_ap) "id" =
      .ok (.str (author.actor_uri ++ "posts/" ++ toString s.nextId ++ "/")) := by
    unfold getKey
    rw [to_ap_lookup_id]
    rfl
  have hcontent : getKey ((Post.create_local s author body summary).2.to_ap) "content" =
      .ok (.str (sanitize_post (Post.create_local s author body summary).2.content)) := by
    unfold getKey
    rw [to_ap_lookup_content]
  have hfind : findPostByUri (Post.create_local s author body summary).1
      (author.actor_uri ++ "posts/" ++ toString s.nextId ++ "/") =
      some (Post.create_local s author body summary).2 := by
    unfold findPostByUri
    have hposts : (Post.create_local s author body summary).1.posts =
        s.posts ++ [(Post.create_local s author body summary).2] := rfl
    rw [hposts, find_append_eq_right _ _ _ hfresh]
    dsimp only [Post.create_local, Post.urls_object_uri]
    simp [List.find?]
  unfold Post.by_ap
  rw [hid]
  simp only [bind, Except.bind, APPrim.toStr]
  rw [hfind]
  simp only [if_true]
  unfold applyUpdate
  rw [hcontent]
  simp only [bind, Except.bind]
  simp [replacePost, Except.toOption]

/-- The GET request `by_object_uri` and `debug_fetch` issue for a URI. -/
def getRequest (uri : String) : HttpRequest :=
  { url := uri, headers := [("Accept", "application/json")], follow_redirects := true }

/-- C7: on a local miss with fetch enabled, `by_object_uri` issues exactly a
GET for the URI with header `Accept: application/json` following redirects;
a 2xx response's body is handed through canonicalisation into
`by_ap(create, update)`, and any other status fails the lookup with
DoesNotExist, creating nothing. -/
theorem by_object_uri_fetch_request_and_status_handling (net : Network)
    (canon : Canonicalise) (s : Store) (uri : String)
    (hmiss : findPostByUri s uri = none) :
    (200 ≤ (net (getRequest uri)).status_code ∧ (net (getRequest uri)).status_code < 300 →
      Post.by_object_uri net canon s uri true =
        Post.by_ap s (canon (net (getRequest uri)).body true) true true) ∧
    (¬(200 ≤ (net (getRequest uri)).status_code ∧ (net (getRequest uri)).status_code < 300) →
      Post.by_object_uri net canon s uri true =
        .error (.doesNotExist ("Cannot find Post with URI " ++ uri))) := by
  unfold Post.by_object_uri getRequest
  rw [hmiss]
  dsimp only
  rw [if_pos rfl]
  constructor
  · intro h
    rw [if_pos h]
  · intro h
    rw [if_neg h]

/-- The post row `by_ap(create=True, update=True)` builds for a fresh inbound
document: remote-origin, in the graph's initial state, carrying the document's
fields. -/
def createdPost (s : Store) (data : APDoc) (idv attrv contentv : APPrim) : Post :=
  let resolved := Identity.by_actor_uri s attrv.toStr
  { id := resolved.1.nextId
    author := resolved.2
    state := .new
    is_local := false
    object_uri := some idv.toStr
    visibility := .public
    content := sanitize_post contentv.toStr
    sensitive := getBool data "as:sensitive"
    summary := getOptStr data "summary"
    url := getOptStr data "url"
    «to» := []
    mentions := []
    published := parse_ld_date (getOptStr data "published") }

/-- The store `by_ap(create=True, update=True)` leaves behind for a fresh
inbound document. -/
def createdStore (s : Store) (data : APDoc) (idv attrv contentv : APPrim) : Store :=
  let resolved := Identity.by_actor_uri s attrv.toStr
  { resolved.1 with
    posts := resolved.1.posts ++ [createdPost s data idv attrv contentv]
    nextId := resolved.1.nextId + 1 }

theorem by_ap_fresh_create (s : Store) (data : APDoc) (idv attrv contentv : APPrim)
    (hid : getKey data "id" = .ok idv)
    (hattr : getKey data "attributedTo" = .ok attrv)
    (hcontent : getKey data "content" = .ok contentv)
    (hmiss : findPostByUri s idv.toStr = none) :
    Post.by_ap s data true true = .ok
      (createdStore s data idv attrv contentv, createdPost s data idv attrv contentv) := by
  unfold Post.by_ap
  rw [hid]
  simp only [bind, Except.bind]
  rw [hmiss]
  dsimp only
  simp only [if_true]
  rw [hattr]
  simp only [bind, Except.bind]
  rw [hcontent]
  simp only [bind, Except.bind]
  unfold applyUpdate
  rw [hcontent]
  simp only [bind, Except.bind]
  rfl

theorem ite_set_state_id (q : Post) (pid : Nat) (st : PostState) :
    (if q.id == pid then { q with state := st } else q).id = q.id := by
  split <;> rfl

theorem createdPost_id (s : Store) (data : APDoc) (idv attrv contentv : APPrim) :
    (createdPost s data idv attrv contentv).id = s.nextId := by
  dsimp only [createdPost]
  rw [by_actor_uri_nextId]

theorem createdStore_posts (s : Store) (data : APDoc) (idv attrv contentv : APPrim) :
    (createdStore s data idv attrv contentv).posts =
      s.posts ++ [createdPost s data idv attrv contentv] := by
  dsimp only [createdStore]
  rw [by_actor_uri_posts]

theorem createdStore_fanouts (s : Store) (data : APDoc) (idv attrv contentv : APPrim) :
    (createdStore s data idv attrv contentv).fanouts = s.fanouts := by
  dsimp only [createdStore]
  rw [by_actor_uri_fanouts]

/-- C9: an inbound Create accepted for a post not yet stored creates a
remote-origin row and forces it straight into the terminal fanned_out state:
afterwards the row is fanned_out and non-local, a scheduler pass over it runs
no handler (the store is returned untouched), and no FanOut rows were
created. -/
theorem handle_create_ap_forces_fanned_out (s : Store) (data : APEnvelope)
    (actorv objv : APValue) (attrv idv contentv : APPrim)
    (ha : getKeyE data "actor" = .ok actorv)
    (ho : getKeyE data "object" = .ok objv)
    (hattr : getKey objv.toObj "attributedTo" = .ok attrv)
    (heq : actorv = APValue.prim attrv)
    (hid : getKey objv.toObj "id" = .ok idv)
    (hcontent : getKey objv.toObj "content" = .ok contentv)
    (hmiss : findPostByUri s idv.toStr = none)
    (hfreshpk : ∀ q ∈ s.posts, (q.id == s.nextId) = false) :
    (Post.handle_create_ap s data).toOption.map
      (fun s2 => ((findPostByPk s2 s.nextId).map
          (fun p2 => (p2.state, p2.is_local, p2.object_uri)),
        (stepPost s2 s.nextId).toOption.map (fun s3 => s3 == s2),
        s2.fanouts)) =
      some (some (.fanned_out, false, some idv.toStr), some true, s.fanouts) := by
  have hby := by_ap_fresh_create s objv.toObj idv attrv contentv hid hattr hcontent hmiss
  have hmain : Post.handle_create_ap s data = .ok
      (transition_perform
        (addTimelineEvents (createdStore s objv.toObj idv attrv contentv)
          (createdPost s objv.toObj idv attrv contentv))
        (createdPost s objv.toObj idv attrv contentv).id .fanned_out) := by
    unfold Post.handle_create_ap
    rw [ha]
    simp only [bind, Except.bind]
    rw [ho]
    simp only [bind, Except.bind]
    rw [hattr]
    simp only [bind, Except.bind]
    rw [if_neg (by simp [heq])]
    rw [hby]
  have hfind : findPostByPk
      (transition_perform
        (addTimelineEvents (createdStore s objv.toObj idv attrv contentv)
          (createdPost s objv.toObj idv attrv contentv))
        (createdPost s objv.toObj idv attrv contentv).id .fanned_out) s.nextId =
      some { createdPost s objv.toObj idv attrv contentv with state := .fanned_out } := by
    unfold findPostByPk transition_perform addTimelineEvents
    dsimp only
    rw [createdStore_posts, List.map_append,
      find_append_eq_right _ _ _ (by
        intro x hx
        obtain ⟨q, hq, rfl⟩ := List.mem_map.1 hx
        rw [ite_set_state_id]
        exact hfreshpk q hq)]
    have hgp : (if (createdPost s objv.toObj idv attrv contentv).id ==
          (createdPost s objv.toObj idv attrv contentv).id then
        { createdPost s objv.toObj idv attrv contentv with state := PostState.fanned_out }
      else createdPost s objv.toObj idv attrv contentv) =
        { createdPost s objv.toObj idv attrv contentv with state := PostState.fanned_out } := by
      rw [if_pos (by simp)]
    simp only [List.map_cons, List.map_nil, hgp, List.find?]
    rw [createdPost_id]
    simp
  have hstep : stepPost
      (transition_perform
        (addTimelineEvents (createdStore s objv.toObj idv attrv contentv)
          (createdPost s objv.toObj idv attrv contentv))
        (createdPost s objv.toObj idv attrv contentv).id .fanned_out) s.nextId = .ok
      (transition_perform
        (addTimelineEvents (createdStore s objv.toObj idv attrv contentv)
          (createdPost s objv.toObj idv attrv contentv))
        (createdPost s objv.toObj idv attrv contentv).id .fanned_out) := by
    unfold stepPost
    rw [hfind]
  have hfan : (transition_perform
        (addTimelineEvents (createdStore s objv.toObj idv attrv contentv)
          (createdPost s objv.toObj idv attrv contentv))
        (createdPost s objv.toObj idv attrv contentv).id .fanned_out).fanouts = s.fanouts := by
    dsimp only [transition_perform, addTimelineEvents]
    rw [createdStore_fanouts]
  rw [hmain]
  dsimp only [Except.toOption, Option.map]
  rw [hfind, hstep]
  dsimp only [Except.toOption, Option.map]
  rw [hfan]
  simp [createdPost]

/-- C8 counterexample: the block table is a schedulable entity table (this
migration alters its `state_ready` column) yet no operation of the migration
covers it with the composite `(state_ready, state_locked_until, state)`
index — refuting, on the only schema code in the source sample, the claim
that every such table carries that composite index. -/
theorem stator_indexes_block_lacks_composite_index :
    "block" ∈ stateReadyModels ∧ "block" ∉ compositeIndexModels := by
  decide

/-- C8 (amended): migration 0013 gives all seven schedulable user-app tables
(block, domain, follow, identity, inboxmessage, passwordreset, report) a
`state_ready` boolean column defaulting to true with a single-column index,
and declares the composite `(state_ready, state_locked_until, state)` index
for exactly domain, inboxmessage, passwordreset and report; every AlterField
it contains is such a `state_ready` alteration and every AlterIndexTogether
it contains sets exactly that composite index. -/
theorem stator_indexes_migration_coverage :
    stateReadyModels =
      ["block", "domain", "follow", "identity", "inboxmessage", "passwordreset", "report"] ∧
    compositeIndexModels = ["domain", "inboxmessage", "passwordreset", "report"] ∧
    stator_indexes_operations.filterMap
      (fun op => match op with
        | .alterField f => some (f.name, f.db_index, f.default)
        | .alterIndexTogether _ => none) =
      List.replicate 7 ("state_ready", true, true) ∧
    stator_indexes_operations.filterMap
      (fun op => match op with
        | .alterField _ => none
        | .alterIndexTogether a => some a.index_together) =
      List.replicate 4 [["state_ready", "state_locked_until", "state"]] := by
  decide

/-! ### Concrete fixtures for the witnesses -/

def ident_a : Identity :=
  { id := 0, is_local := true, actor_uri := "https://ex.example/@a/",
    view_nice_url := "https://ex.example/@a/" }

def ident_f1 : Identity :=
  { id := 1, is_local := true, actor_uri := "https://ex.example/@f1/",
    view_nice_url := "https://ex.example/@f1/" }

def ident_f2 : Identity :=
  { id := 2, is_local := true, actor_uri := "https://ex.example/@f2/",
    view_nice_url := "https://ex.example/@f2/" }

def store0 : Store :=
  { posts := []
    identities := [ident_a, ident_f1, ident_f2]
    follows := [{ source := ident_f1, target := ident_a },
      { source := ident_f2, target := ident_a }]
    fanouts := []
    events := []
    nextId := 10
    nextIdentityId := 100
    now := 5 }

def store1 : Store := (Post.create_local store0 ident_a "hello" none).1

def post_a : Post := (Post.create_local store0 ident_a "hello" none).2

def net0 : Network := fun _ => { status_code := 404, body := [] }

def canon0 : Canonicalise := fun d _ => d

def create_bad_obj : APDoc :=
  [("id", .str "https://rem.example/@b/posts/1/"),
   ("attributedTo", .str "https://rem.example/@b/"),
   ("content", .str "hi")]

def create_bad : APEnvelope :=
  [("type", .prim (.str "Create")),
   ("actor", .prim (.str "https://rem.example/@evil/")),
   ("object", .obj create_bad_obj)]

def create_good_obj : APDoc :=
  [("id", .str "https://rem.example/@b/posts/1/"),
   ("attributedTo", .str "https://rem.example/@b/"),
   ("content", .str "hi")]

def create_good : APEnvelope :=
  [("type", .prim (.str "Create")),
   ("actor", .prim (.str "https://rem.example/@b/")),
   ("object", .obj create_good_obj)]

def delete_unknown : APEnvelope :=
  [("type", .prim (.str "Delete")),
   ("actor", .prim (.str "https://rem.example/@b/")),
   ("object", .obj [("id", .str "https://nowhere.example/1/")])]

def delete_wrong_actor : APEnvelope :=
  [("type", .prim (.str "Delete")),
   ("actor", .prim (.str "https://rem.example/@evil/")),
   ("object", .obj [("id", .str "https://ex.example/@a/posts/10/")])]

/-! ### Witnesses -/

/-- Witness for C1: a local author with local followers f1 and f2, one local
post in state new; the handler run yields exactly the three FanOut rows. -/
theorem handle_new_local_author_fans_out_three_witness :
    post_a.state = PostState.new ∧
    post_a.is_local = true ∧
    findPostByPk store1 post_a.id = some post_a ∧
    post_a.author.is_local = true ∧
    ident_f1.is_local = true ∧
    ident_f2.is_local = true ∧
    store1.follows.filter (fun f => f.target.id == post_a.author.id) =
      [{ source := ident_f1, target := post_a.author },
        { source := ident_f2, target := post_a.author }] ∧
    (PostStates.handle_new store1 post_a =
      .ok ({ store1 with fanouts := store1.fanouts ++
        [ { identity_id := ident_f1.id, type := .post, subject_post := post_a.id }
        , { identity_id := ident_f2.id, type := .post, subject_post := post_a.id }
        , { identity_id := post_a.author.id, type := .post, subject_post := post_a.id } ] },
        .fanned_out) ∧
      stepPost store1 post_a.id =
      .ok { store1 with
        posts := store1.posts.map
          (fun q => if q.id == post_a.id then { q with state := .fanned_out } else q)
        fanouts := store1.fanouts ++
          [ { identity_id := ident_f1.id, type := .post, subject_post := post_a.id }
          , { identity_id := ident_f2.id, type := .post, subject_post := post_a.id }
          , { identity_id := post_a.author.id, type := .post, subject_post := post_a.id } ] }) :=
  ⟨by decide, by decide, by decide, by decide, by decide, by decide, by decide,
    handle_new_local_author_fans_out_three store1 post_a ident_f1 ident_f2
      (by decide) (by decide) (by decide) (by decide) (by decide) (by decide) (by decide)⟩

/-- Witness for C2: a Create whose actor differs from the object's
attributedTo is rejected and the store is untouched. -/
theorem handle_create_ap_actor_mismatch_rejected_witness :
    getKeyE create_bad "actor" = .ok (.prim (.str "https://rem.example/@evil/")) ∧
    getKeyE create_bad "object" = .ok (.obj create_bad_obj) ∧
    getKey (APValue.obj create_bad_obj).toObj "attributedTo" =
      .ok (.str "https://rem.example/@b/") ∧
    APValue.prim (.str "https://rem.example/@evil/") ≠
      APValue.prim (.str "https://rem.example/@b/") ∧
    (Post.handle_create_ap store0 create_bad =
      .error (.valueError "Create actor does not match its Post object") ∧
    runExcept store0 (Post.handle_create_ap store0 create_bad) = store0) :=
  ⟨by decide, by decide, by decide, by decide,
    handle_create_ap_actor_mismatch_rejected store0 create_bad
      (.prim (.str "https://rem.example/@evil/")) (.obj create_bad_obj)
      (.str "https://rem.example/@b/")
      (by decide) (by decide) (by decide) (by decide)⟩

/-- Witness for C3: the round-trip at a concrete empty store. -/
theorem create_local_roundtrip_resolves_same_post_witness :
    (Post.by_ap (Post.create_local store0 ident_a "hello" none).1
        ((Post.create_local store0 ident_a "hello" none).2.to_ap) true true).toOption.map
      (fun x => (x.2.id, x.2.object_uri, x.1.posts.length)) =
    some ((Post.create_local store0 ident_a "hello" none).2.id,
      (Post.create_local store0 ident_a "hello" none).2.object_uri,
      (Post.create_local store0 ident_a "hello" none).1.posts.length) :=
  create_local_roundtrip_resolves_same_post store0 ident_a "hello" none (by decide)

/-- Witness for C4: the document shape of the concrete local post. -/
theorem to_ap_document_shape_and_create_envelope_witness :
    post_a.object_uri = some "https://ex.example/@a/posts/10/" ∧
    (post_a.to_ap.map Prod.fst =
      ["type", "id", "published", "attributedTo", "content", "to", "as:sensitive", "url"] ++
        (if truthy post_a.summary then ["summary"] else []) ∧
    post_a.to_ap.lookup "type" = some (.str "Note") ∧
    post_a.to_ap.lookup "id" = some (.str "https://ex.example/@a/posts/10/") ∧
    post_a.to_create_ap =
      [ ("type", .prim (.str "Create"))
      , ("id", .prim (.str ("https://ex.example/@a/posts/10/" ++ "#create")))
      , ("actor", .prim (.str post_a.author.actor_uri))
      , ("object", .obj post_a.to_ap) ]) :=
  ⟨by decide,
    to_ap_document_shape_and_create_envelope post_a "https://ex.example/@a/posts/10/"
      (by decide)⟩

/-- Witness for C5: deleting an unknown object id returns the store as-is. -/
theorem handle_delete_ap_unknown_object_noop_witness :
    getKeyE delete_unknown "object" =
      .ok (.obj [("id", .str "https://nowhere.example/1/")]) ∧
    getKey (APValue.obj [("id", .str "https://nowhere.example/1/")]).toObj "id" =
      .ok (.str "https://nowhere.example/1/") ∧
    findPostByUri store0 (APPrim.str "https://nowhere.example/1/").toStr = none ∧
    Post.handle_delete_ap net0 canon0 store0 delete_unknown = .ok store0 :=
  ⟨by decide, by decide, by decide,
    handle_delete_ap_unknown_object_noop net0 canon0 store0 delete_unknown
      (.obj [("id", .str "https://nowhere.example/1/")]) (.str "https://nowhere.example/1/")
      (by decide) (by decide) (by decide)⟩

/-- Witness for C6: a Delete naming a stored post but signed by a different
actor is rejected, and the store is untouched. -/
theorem handle_delete_ap_actor_check_witness :
    findPostByUri store1 (APPrim.str "https://ex.example/@a/posts/10/").toStr =
      some post_a ∧
    (Post.handle_delete_ap net0 canon0 store1 delete_wrong_actor =
      .error (.valueError "Actor on delete does not match object") ∧
    runExcept store1 (Post.handle_delete_ap net0 canon0 store1 delete_wrong_actor) = store1) :=
  ⟨by decide,
    (handle_delete_ap_actor_check net0 canon0 store1 delete_wrong_actor
      (.obj [("id", .str "https://ex.example/@a/posts/10/")])
      (.str "https://ex.example/@a/posts/10/") post_a
      (.prim (.str "https://rem.example/@evil/"))
      (by decide) (by decide) (by decide) (by decide)).1 (by decide)⟩

/-- Witness for C7: a 404 response makes the fetch-backed lookup raise
DoesNotExist. -/
theorem by_object_uri_fetch_request_and_status_handling_witness :
    findPostByUri store0 "https://nowhere.example/1/" = none ∧
    Post.by_object_uri net0 canon0 store0 "https://nowhere.example/1/" true =
      .error (.doesNotExist ("Cannot find Post with URI " ++ "https://nowhere.example/1/")) :=
  ⟨by decide,
    (by_object_uri_fetch_request_and_status_handling net0 canon0 store0
      "https://nowhere.example/1/" (by decide)).2 (by decide)⟩

/-- Witness for C9: an accepted Create for an unknown remote post leaves it
fanned_out and non-local with no FanOut rows, and a scheduler pass is a no-op. -/
theorem handle_create_ap_forces_fanned_out_witness :
    getKeyE create_good "actor" = .ok (.prim (.str "https://rem.example/@b/")) ∧
    getKeyE create_good "object" = .ok (.obj create_good_obj) ∧
    findPostByUri store0 (APPrim.str "https://rem.example/@b/posts/1/").toStr = none ∧
    (Post.handle_create_ap store0 create_good).toOption.map
      (fun s2 => ((findPostByPk s2 store0.nextId).map
          (fun p2 => (p2.state, p2.is_local, p2.object_uri)),
        (stepPost s2 store0.nextId).toOption.map (fun s3 => s3 == s2),
        s2.fanouts)) =
      some (some (.fanned_out, false,
          some (APPrim.str "https://rem.example/@b/posts/1/").toStr),
        some true, store0.fanouts) :=
  ⟨by decide, by decide, by decide,
    handle_create_ap_forces_fanned_out store0 create_good
      (.prim (.str "https://rem.example/@b/")) (.obj create_good_obj)
      (.str "https://rem.example/@b/") (.str "https://rem.example/@b/posts/1/")
      (.str "hi")
      (by decide) (by decide) (by decide) (by decide) (by decide) (by decide) (by decide)
      (by decide)⟩

end Takahe
